import Mathlib

/-!
Verification of the PTSC certificate verification client (script.js).

JavaScript strings are modelled as lists of characters (`JSStr`), nullable
values as `Option`, and the three-state view switch as an enumeration.
Every definition below is a shallow embedding of the correspondingly named
function in script.js.
-/

/-- A JavaScript string, modelled as a list of characters. -/
abbrev JSStr := List Char

/-- The character class removed by the JavaScript `String.prototype.trim`:
WhiteSpace and LineTerminator code points. -/
def isJSWhitespace (c : Char) : Bool :=
  c == '\u0020' || c == '\u0009' || c == '\u000a' || c == '\u000d' ||
  c == '\u000b' || c == '\u000c' || c == '\u00a0' ||
  c == '\u1680' || ('\u2000' ≤ c && c ≤ '\u200a') ||
  c == '\u2028' || c == '\u2029' || c == '\u202f' ||
  c == '\u205f' || c == '\u3000' || c == '\ufeff'

/-- JavaScript `s.trim()`: drop leading and trailing whitespace. -/
def jsTrim (s : JSStr) : JSStr :=
  ((s.dropWhile isJSWhitespace).reverse.dropWhile isJSWhitespace).reverse

/-- JavaScript truthiness of a possibly-undefined string: `undefined`, `null`
and the empty string are falsy, every other string is truthy. -/
def truthy : Option JSStr → Bool
  | none => false
  | some s => !s.isEmpty

/-- One element of the `certificates` array in certificates.json.  Every field
may be absent (`none`); script.js guards each access with `|| ''` or a
conditional. -/
structure Certificate where
  id : Option JSStr
  key : Option JSStr
  name : Option JSStr
  event : Option JSStr
  type : Option JSStr
  date : Option JSStr
  issuer : Option JSStr
  deriving Repr, DecidableEq

/-- The record collection document: a JSON object with a single array field
`certificates`. -/
structure CertData where
  certificates : List Certificate
  deriving Repr, DecidableEq

/-- The predicate tested by the `find` callback in `validateCertificate`
(script.js lines 252-257): the trimmed `id` and `key` fields of the record
(absent fields coerced to the empty string) both equal the normalized inputs. -/
def certMatches (id key : Option JSStr) (cert : Certificate) : Bool :=
  jsTrim (cert.id.getD []) == jsTrim (id.getD []) &&
  jsTrim (cert.key.getD []) == jsTrim (key.getD [])

/-- `validateCertificate` (script.js lines 243-264), success path of the fetch:
trim the (null-coerced) inputs and return the first record of the collection
whose trimmed `id` and `key` fields equal them, or `none` (JS `null`). -/
def validateCertificate (id key : Option JSStr) (certs : List Certificate) :
    Option Certificate :=
  certs.find? (certMatches id key)

-- ==========================================
-- Parameter Reader (parseURLParams)
-- ==========================================

/-- JS property read `result[key]` on the accumulating parameter object,
modelled as an association list whose keys are unique. -/
def jsGet (m : List (JSStr × JSStr)) (k : JSStr) : Option JSStr :=
  (m.find? (fun p => p.1 == k)).map (fun p => p.2)

/-- JS property write `result[key] = value`: replace the binding when the key
is present, append it otherwise. -/
def jsSet (m : List (JSStr × JSStr)) (k v : JSStr) : List (JSStr × JSStr) :=
  if (m.find? (fun p => p.1 == k)).isSome then
    m.map (fun p => if p.1 == k then (p.1, v) else p)
  else m ++ [(k, v)]

/-- `parseURLParams` (script.js lines 14-26): iterate over the query entries
in order and run `if (!result[key]) result[key] = value`, i.e. assign whenever
the current binding is falsy (absent or bound to the empty string). -/
def parseURLParams (entries : List (JSStr × JSStr)) : List (JSStr × JSStr) :=
  entries.foldl
    (fun result kv =>
      if !(truthy (jsGet result kv.1)) then jsSet result kv.1 kv.2 else result)
    []

-- ==========================================
-- Display Controller state
-- ==========================================

/-- The three mutually exclusive view regions of certificate.html. -/
inductive DisplayState where
  | loading
  | error
  | certificate
  deriving Repr, DecidableEq

/-- `showLoading` (script.js lines 63-71): loading visible, the others hidden. -/
def showLoading (_s : DisplayState) : DisplayState := DisplayState.loading

/-- `showError` (script.js lines 76-84): error visible, the others hidden. -/
def showError (_s : DisplayState) : DisplayState := DisplayState.error

/-- `showCertificate` (script.js lines 89-103): certificate visible, the
others hidden (the protection/scaling side effects are modelled separately). -/
def showCertificate (_s : DisplayState) : DisplayState := DisplayState.certificate

/-- `updateCertificateDisplay` (script.js lines 274-330), display-state
effect: the whole body runs inside try/catch and the catch handler calls
`showError()`; on success no display state is touched.  `renderThrows` models
whether populating the certificate fields raises an error. -/
def updateCertificateDisplay (renderThrows : Bool) (s : DisplayState) :
    DisplayState :=
  if renderThrows then showError s else s

/-- `validateCertificate` including its fetch of certificates.json
(script.js lines 243-264): a fetch failure is caught inside
`validateCertificate` and yields `null`. -/
def validateCertificateFetched (id key : Option JSStr)
    (fetched : Except Unit CertData) : Option Certificate :=
  match fetched with
  | Except.error _ => none
  | Except.ok data => validateCertificate id key data.certificates

/-- Outcome of one run of `verifyCertificate`: the final display state and
whether the flow reached the certificate fetch. -/
structure VerifyResult where
  display : DisplayState
  fetchAttempted : Bool
  deriving Repr, DecidableEq

/-- `verifyCertificate` (script.js lines 371-407): show loading, parse the
query entries, check the two parameters for truthiness, and only then fetch
and match; a match runs `updateCertificateDisplay` then `showCertificate()`
in that order, every other path runs `showError()`. -/
def verifyCertificate (entries : List (JSStr × JSStr))
    (fetched : Except Unit CertData) (renderThrows : Bool) : VerifyResult :=
  let s0 := showLoading DisplayState.loading
  let params := parseURLParams entries
  let certificateId := jsGet params ("id".toList)
  let certificateKey := jsGet params ("key".toList)
  if !(truthy certificateId) || !(truthy certificateKey) then
    { display := showError s0, fetchAttempted := false }
  else
    match validateCertificateFetched certificateId certificateKey fetched with
    | some _ =>
        { display := showCertificate (updateCertificateDisplay renderThrows s0),
          fetchAttempted := true }
    | none => { display := showError s0, fetchAttempted := true }

-- ==========================================
-- Form Gate (handleFormSubmit)
-- ==========================================

/-- ASCII digit, the character class 0-9 of the id pattern. -/
def isDigitChar (c : Char) : Bool := '0' ≤ c && c ≤ '9'

/-- The character class a-zA-Z0-9 of the key pattern. -/
def isAlnumChar (c : Char) : Bool :=
  ('a' ≤ c && c ≤ 'z') || ('A' ≤ c && c ≤ 'Z') || ('0' ≤ c && c ≤ '9')

/-- The anchored id pattern of script.js line 434: the literal PTSC, four
digits, a dash, four digits, and nothing else. -/
def certIdPattern (s : JSStr) : Bool :=
  match s with
  | 'P' :: 'T' :: 'S' :: 'C' :: d1 :: d2 :: d3 :: d4 :: '-' ::
      e1 :: e2 :: e3 :: e4 :: [] =>
      isDigitChar d1 && isDigitChar d2 && isDigitChar d3 && isDigitChar d4 &&
      isDigitChar e1 && isDigitChar e2 && isDigitChar e3 && isDigitChar e4
  | _ => false

/-- The anchored key pattern of script.js line 440: exactly ten alphanumeric
characters. -/
def certKeyPattern (s : JSStr) : Bool :=
  s.length == 10 && s.all isAlnumChar

/-- The externally observable outcome of one form submission: one of the
three alert-and-return rejections, or navigation to certificate.html with the
two validated values as query parameters. -/
inductive FormOutcome where
  | missingFields
  | badId
  | badKey
  | navigate (id key : JSStr)
  deriving Repr, DecidableEq

/-- `handleFormSubmit` (script.js lines 417-455): read the two fields
(optional chaining keeps an absent field undefined, a present field is
trimmed), reject falsy values, then test the two patterns, and navigate only
when both pass. -/
def handleFormSubmit (rawId rawKey : Option JSStr) : FormOutcome :=
  let certificateId := rawId.map jsTrim
  let certificateKey := rawKey.map jsTrim
  if !(truthy certificateId) || !(truthy certificateKey) then
    FormOutcome.missingFields
  else if !(certIdPattern (certificateId.getD [])) then
    FormOutcome.badId
  else if !(certKeyPattern (certificateKey.getD [])) then
    FormOutcome.badKey
  else
    FormOutcome.navigate (certificateId.getD []) (certificateKey.getD [])

-- ==========================================
-- Responsive scaling (applyResponsiveScale)
-- ==========================================

/-- `applyResponsiveScale` (script.js lines 112-150), the computed scale
factor, with the exact rational arithmetic of the source: base dimensions
1123 by 794, responsive padding, `Math.min(scaleX, scaleY, 1)` and
`Math.max(scale, 0.25)`. -/
def applyResponsiveScale (viewportWidth viewportHeight : ℚ) : ℚ :=
  let baseWidth : ℚ := 1123
  let baseHeight : ℚ := 794
  let horizontalPadding : ℚ := if viewportWidth < 768 then 20 else 40
  let verticalPadding : ℚ := if viewportWidth < 768 then 100 else 200
  let availableWidth := viewportWidth - horizontalPadding
  let availableHeight := viewportHeight - verticalPadding
  let scaleX := availableWidth / baseWidth
  let scaleY := availableHeight / baseHeight
  let scale := min (min scaleX scaleY) 1
  max scale (1/4)

/-- Modelled from the spec: the scale formula as the specification states it,
max(min(availableWidth/1123, availableHeight/794, 1), 0.25), taking the
available dimensions as inputs. -/
def specScaleFormula (availableWidth availableHeight : ℚ) : ℚ :=
  max (min (min (availableWidth / 1123) (availableHeight / 794)) 1) (1 / 4)

-- ==========================================
-- Deterrent handlers (enable/disableClientProtection)
-- ==========================================

/-- The process-wide deterrent-handler state: the `_protectionHandlers` flag
(script.js line 176) plus a count of handler pairs currently registered on
the document, tracking the addEventListener/removeEventListener calls. -/
structure ProtectionState where
  handlersInstalled : Bool
  registeredPairs : Nat
  deriving Repr, DecidableEq

/-- Page-load state: `_protectionHandlers = null`, nothing registered. -/
def initialProtectionState : ProtectionState :=
  { handlersInstalled := false, registeredPairs := 0 }

/-- `enableClientProtection` (script.js lines 178-204): return immediately
when `_protectionHandlers` is already set; otherwise register one
contextmenu/keydown handler pair and set the flag. -/
def enableClientProtection (s : ProtectionState) : ProtectionState :=
  if s.handlersInstalled then s
  else { handlersInstalled := true, registeredPairs := s.registeredPairs + 1 }

/-- `disableClientProtection` (script.js lines 206-211): return immediately
when nothing is installed; otherwise remove the registered pair and clear the
flag. -/
def disableClientProtection (s : ProtectionState) : ProtectionState :=
  if !s.handlersInstalled then s
  else { handlersInstalled := false, registeredPairs := s.registeredPairs - 1 }

/-- Any interleaving of enable (true) and disable (false) calls, run from the
page-load state. -/
def runProtectionOps (ops : List Bool) : ProtectionState :=
  ops.foldl
    (fun s op => if op then enableClientProtection s else disableClientProtection s)
    initialProtectionState

-- ==========================================
-- Export Pipeline (downloadCertificate)
-- ==========================================

/-- The requested export format, the `format` argument of
`downloadCertificate`. -/
inductive ExportFormat where
  | jpg
  | pdf
  deriving Repr, DecidableEq

/-- The page state touched by `downloadCertificate`: whether the off-screen
clone is attached to the document body, whether the navigation region is
visible, the display state, and the number of alert dialogs raised so far. -/
structure PageState where
  cloneAttached : Bool
  navVisible : Bool
  display : DisplayState
  alerts : Nat
  deriving Repr, DecidableEq

/-- `downloadCertificate` (script.js lines 582-681): alert and return when
the certificate region is absent; otherwise append the off-screen clone, hide
the navigation, run the rasterize/encode/embed sequence inside try/catch
(the catch raises one alert), and in the finally block remove the clone and
set the navigation visible again.  `rasterOk` models the html2canvas call
succeeding, `embedOk` the jsPDF embedding (relevant only for the pdf
format). -/
def downloadCertificate (format : ExportFormat)
    (certificatePresent navigationPresent rasterOk embedOk : Bool)
    (s : PageState) : PageState :=
  if !certificatePresent then
    { s with alerts := s.alerts + 1 }
  else
    let s1 := { s with cloneAttached := true }
    let s2 := if navigationPresent then { s1 with navVisible := false } else s1
    let trySucceeds := rasterOk &&
      (match format with
       | ExportFormat.pdf => embedOk
       | ExportFormat.jpg => true)
    let s3 :=
      if trySucceeds then
        if navigationPresent then { s2 with navVisible := true } else s2
      else
        { s2 with alerts := s2.alerts + 1 }
    let s4 := { s3 with cloneAttached := false }
    if navigationPresent then { s4 with navVisible := true } else s4

-- ==========================================
-- Concrete records used by the witnesses
-- ==========================================

/-- A sample well-formed record, as in the spec scenario section. -/
def demoCert : Certificate :=
  { id := some "PTSC2025-0001".toList
    key := some "AAAAAAAAAA".toList
    name := some "Jane Doe".toList
    event := some "Tech Workshop".toList
    type := some "Participation".toList
    date := some "2025-01-15".toList
    issuer := some "PTSC KNIT".toList }

/-- A malformed record: no id field, whitespace-only key field. -/
def malformedCert : Certificate :=
  { id := none
    key := some "  ".toList
    name := none
    event := none
    type := none
    date := none
    issuer := none }

-- ==========================================
-- Helper lemmas about jsTrim and find?
-- ==========================================

theorem dropWhile_append_of_all {p : Char → Bool} {w : JSStr} (l : JSStr)
    (h : ∀ c ∈ w, p c = true) :
    (w ++ l).dropWhile p = l.dropWhile p := by
  induction w with
  | nil => rfl
  | cons a w ih =>
    simp only [List.cons_append, List.dropWhile_cons]
    rw [h a (by simp)]
    exact ih fun c hc => h c (by simp [hc])

theorem dropWhile_append_of_ne_nil {p : Char → Bool} {l : JSStr} (w : JSStr)
    (h : l.dropWhile p ≠ []) :
    (l ++ w).dropWhile p = l.dropWhile p ++ w := by
  induction l with
  | nil => simp at h
  | cons a l ih =>
    simp only [List.cons_append, List.dropWhile_cons] at *
    cases hpa : p a with
    | true => simp only [hpa] at h ⊢; exact ih h
    | false => simp [hpa]

theorem jsTrim_eq_nil_iff (l : JSStr) :
    jsTrim l = [] ↔ ∀ c ∈ l, isJSWhitespace c = true := by
  unfold jsTrim
  rw [List.reverse_eq_nil_iff, List.dropWhile_eq_nil_iff]
  simp only [List.mem_reverse]
  constructor
  · intro h c hc
    by_cases hw : isJSWhitespace c = true
    · exact hw
    · exfalso
      have hsplit := List.takeWhile_append_dropWhile (p := isJSWhitespace) (l := l)
      have hcmem : c ∈ l.takeWhile isJSWhitespace ∨ c ∈ l.dropWhile isJSWhitespace := by
        rw [← List.mem_append, hsplit]; exact hc
      rcases hcmem with hmem | hmem
      · exact hw (List.mem_takeWhile_imp hmem)
      · exact hw (h c hmem)
  · intro h c hc
    exact h c ((List.dropWhile_sublist isJSWhitespace).subset hc)

theorem jsTrim_pad (w1 w2 s : JSStr)
    (h1 : ∀ c ∈ w1, isJSWhitespace c = true)
    (h2 : ∀ c ∈ w2, isJSWhitespace c = true) :
    jsTrim (w1 ++ s ++ w2) = jsTrim s := by
  by_cases hs : ∀ c ∈ s, isJSWhitespace c = true
  · rw [(jsTrim_eq_nil_iff s).mpr hs, (jsTrim_eq_nil_iff (w1 ++ s ++ w2)).mpr]
    intro c hc
    simp only [List.append_assoc, List.mem_append] at hc
    rcases hc with hc | hc | hc
    · exact h1 c hc
    · exact hs c hc
    · exact h2 c hc
  · have hne : s.dropWhile isJSWhitespace ≠ [] := by
      intro hnil
      exact hs (List.dropWhile_eq_nil_iff.mp hnil)
    unfold jsTrim
    rw [List.append_assoc, dropWhile_append_of_all (s ++ w2) h1,
        dropWhile_append_of_ne_nil w2 hne, List.reverse_append]
    rw [dropWhile_append_of_all (s.dropWhile isJSWhitespace).reverse
        (fun c hc => h2 c (by simpa using hc))]

theorem find?_eq_some_split {α} (p : α → Bool) (l : List α) (a : α) :
    l.find? p = some a ↔
      ∃ l1 l2, l = l1 ++ a :: l2 ∧ p a = true ∧ ∀ x ∈ l1, p x = false := by
  induction l with
  | nil => simp
  | cons b l ih =>
    rw [List.find?_cons]
    cases hpb : p b with
    | true =>
      simp only [Option.some_inj]
      constructor
      · rintro rfl
        exact ⟨[], l, rfl, hpb, by simp⟩
      · rintro ⟨l1, l2, heq, hpa, hl1⟩
        cases l1 with
        | nil =>
          simpa using congrArg (·.head?) heq
        | cons c l1 =>
          exfalso
          have hcb : c = b := by simpa using congrArg (·.head?) heq.symm
          have hthis := hl1 c (by simp)
          rw [hcb, hpb] at hthis
          exact Bool.noConfusion hthis
    | false =>
      rw [ih]
      constructor
      · rintro ⟨l1, l2, heq, hpa, hl1⟩
        refine ⟨b :: l1, l2, by simp [heq], hpa, ?_⟩
        intro x hx
        rcases List.mem_cons.mp hx with rfl | hx
        · exact hpb
        · exact hl1 x hx
      · rintro ⟨l1, l2, heq, hpa, hl1⟩
        cases l1 with
        | nil =>
          exfalso
          have hab : a = b := by simpa using congrArg (·.head?) heq.symm
          rw [hab] at hpa
          rw [hpa] at hpb
          exact Bool.noConfusion hpb
        | cons c l1 =>
          have htail : l = l1 ++ a :: l2 := by
            simpa using congrArg (·.tail) heq
          exact ⟨l1, l2, htail, hpa, fun x hx => hl1 x (by simp [hx])⟩

theorem find?_congr_pred {α} {p q : α → Bool} (l : List α)
    (h : ∀ x ∈ l, p x = q x) : l.find? p = l.find? q := by
  induction l with
  | nil => rfl
  | cons a l ih =>
    rw [List.find?_cons, List.find?_cons, h a (by simp)]
    cases q a with
    | true => rfl
    | false => exact ih fun x hx => h x (by simp [hx])

-- ==========================================
-- Bridging lemmas for certMatches
-- ==========================================

theorem certMatches_eq_true_iff (id key : Option JSStr) (c : Certificate) :
    certMatches id key c = true ↔
      jsTrim (c.id.getD []) = jsTrim (id.getD []) ∧
      jsTrim (c.key.getD []) = jsTrim (key.getD []) := by
  simp [certMatches]

theorem certMatches_eq_false_iff (id key : Option JSStr) (c : Certificate) :
    certMatches id key c = false ↔
      ¬(jsTrim (c.id.getD []) = jsTrim (id.getD []) ∧
        jsTrim (c.key.getD []) = jsTrim (key.getD [])) := by
  rw [← certMatches_eq_true_iff]
  cases certMatches id key c <;> simp

theorem validateCertificate_congr (id1 id2 key1 key2 : Option JSStr)
    (certs : List Certificate)
    (hid : jsTrim (id1.getD []) = jsTrim (id2.getD []))
    (hkey : jsTrim (key1.getD []) = jsTrim (key2.getD [])) :
    validateCertificate id1 key1 certs = validateCertificate id2 key2 certs := by
  unfold validateCertificate
  apply find?_congr_pred
  intro c _
  unfold certMatches
  rw [hid, hkey]

/-- Claim C1: validateCertificate returns the first record of the collection
whose trimmed id and key fields both exactly equal the trimmed (null-coerced)
inputs, returns none exactly when no record satisfies that equality, and is
invariant under adding leading or trailing whitespace to either input, so no
partial or case-insensitive match is ever produced. -/
theorem validateCertificate_spec (certs : List Certificate)
    (id key : Option JSStr) :
    (validateCertificate id key certs = none ↔
      ∀ c ∈ certs,
        ¬(jsTrim (c.id.getD []) = jsTrim (id.getD []) ∧
          jsTrim (c.key.getD []) = jsTrim (key.getD []))) ∧
    (∀ c, validateCertificate id key certs = some c ↔
      ∃ l1 l2, certs = l1 ++ c :: l2 ∧
        jsTrim (c.id.getD []) = jsTrim (id.getD []) ∧
        jsTrim (c.key.getD []) = jsTrim (key.getD []) ∧
        ∀ x ∈ l1,
          ¬(jsTrim (x.id.getD []) = jsTrim (id.getD []) ∧
            jsTrim (x.key.getD []) = jsTrim (key.getD []))) ∧
    (∀ w1 w2 s, (∀ c ∈ w1, isJSWhitespace c = true) →
      (∀ c ∈ w2, isJSWhitespace c = true) →
      validateCertificate (some (w1 ++ s ++ w2)) key certs =
        validateCertificate (some s) key certs ∧
      validateCertificate id (some (w1 ++ s ++ w2)) certs =
        validateCertificate id (some s) certs) := by
  refine ⟨?_, ?_, ?_⟩
  · rw [show (validateCertificate id key certs) = certs.find? (certMatches id key) from rfl,
        List.find?_eq_none]
    constructor
    · intro h c hc
      rw [← certMatches_eq_true_iff]
      exact h c hc
    · intro h c hc
      rw [certMatches_eq_true_iff]
      exact h c hc
  · intro c
    rw [show (validateCertificate id key certs) = certs.find? (certMatches id key) from rfl,
        find?_eq_some_split]
    constructor
    · rintro ⟨l1, l2, heq, hc, hl1⟩
      rw [certMatches_eq_true_iff] at hc
      exact ⟨l1, l2, heq, hc.1, hc.2, fun x hx =>
        (certMatches_eq_false_iff id key x).mp (hl1 x hx)⟩
    · rintro ⟨l1, l2, heq, hcid, hckey, hl1⟩
      exact ⟨l1, l2, heq, (certMatches_eq_true_iff id key c).mpr ⟨hcid, hckey⟩,
        fun x hx => (certMatches_eq_false_iff id key x).mpr (hl1 x hx)⟩
  · intro w1 w2 s h1 h2
    constructor
    · exact validateCertificate_congr _ _ _ _ certs
        (by simpa using jsTrim_pad w1 w2 s h1 h2) rfl
    · exact validateCertificate_congr _ _ _ _ certs rfl
        (by simpa using jsTrim_pad w1 w2 s h1 h2)

/-- Witness for C1: the whitespace-invariance part at explicit inputs, via
the theorem itself. -/
theorem validateCertificate_spec_witness :
    validateCertificate (some (' ' :: "PTSC2025-0001".toList ++ [' ', ' ']))
        (some "AAAAAAAAAA".toList) [demoCert] =
      validateCertificate (some "PTSC2025-0001".toList)
        (some "AAAAAAAAAA".toList) [demoCert] :=
  ((validateCertificate_spec [demoCert] (some "PTSC2025-0001".toList)
      (some "AAAAAAAAAA".toList)).2.2 [' '] [' ', ' '] "PTSC2025-0001".toList
      (by decide) (by decide)).1

/-- Claim C2, behaviour at the failing input: when the matched record is
found and populating the certificate fields raises (renderThrows = true),
the error is caught inside updateCertificateDisplay, which switches to the
ERROR view, but verifyCertificate then runs showCertificate unconditionally,
so the run ends in the CERTIFICATE display state and not in ERROR. -/
theorem verifyCertificate_render_error_final_state :
    (verifyCertificate
        [("id".toList, "PTSC2025-0001".toList),
         ("key".toList, "AAAAAAAAAA".toList)]
        (Except.ok { certificates := [demoCert] }) true).display =
      DisplayState.certificate ∧
    updateCertificateDisplay true DisplayState.loading = DisplayState.error := by
  refine ⟨?_, rfl⟩
  decide

/-- Claim C3, behaviour at the failing input: when the first occurrence of a
parameter name carries the empty string, parseURLParams lets a later
occurrence overwrite it (the guard tests falsiness, not absence), so the name
is not bound to the value of its first occurrence. -/
theorem parseURLParams_overwrites_empty_first :
    parseURLParams [("a".toList, []), ("a".toList, ['1'])] =
      [("a".toList, ['1'])] ∧
    jsGet (parseURLParams [("a".toList, []), ("a".toList, ['1'])])
        "a".toList = some ['1'] := by
  refine ⟨by decide, by decide⟩

/-- Claim C4: when the collection contains duplicate records for the queried
trimmed identifier and key pair, validateCertificate returns the matching
record that occurs first in array order. -/
theorem validateCertificate_first_of_duplicates (id key : Option JSStr)
    (l1 : List Certificate) (c : Certificate) (l2 : List Certificate)
    (c2 : Certificate) (l3 : List Certificate)
    (hfirst : ∀ x ∈ l1, certMatches id key x = false)
    (hc : certMatches id key c = true)
    (_hc2 : certMatches id key c2 = true) :
    validateCertificate id key (l1 ++ c :: (l2 ++ c2 :: l3)) = some c := by
  rw [show (validateCertificate id key (l1 ++ c :: (l2 ++ c2 :: l3))) =
      (l1 ++ c :: (l2 ++ c2 :: l3)).find? (certMatches id key) from rfl,
    find?_eq_some_split]
  exact ⟨l1, l2 ++ c2 :: l3, rfl, hc, hfirst⟩

/-- Witness for C4: two identical records, the first one is returned. -/
theorem validateCertificate_first_of_duplicates_witness :
    validateCertificate (some "PTSC2025-0001".toList)
        (some "AAAAAAAAAA".toList) [demoCert, demoCert] = some demoCert :=
  validateCertificate_first_of_duplicates (some "PTSC2025-0001".toList)
    (some "AAAAAAAAAA".toList) [] demoCert [] demoCert []
    (by intro x hx; exact absurd hx (List.not_mem_nil x))
    (by decide) (by decide)

/-- Claim C5: whenever the id or the key parameter is missing or empty in the
parsed parameters, verifyCertificate ends in the ERROR display state without
the record fetch being attempted; conversely the fetch is reached only when
both parameters are present and non-empty, so the presence check strictly
precedes the fetch. -/
theorem verifyCertificate_params_checked_before_fetch :
    (∀ entries fetched renderThrows,
      (truthy (jsGet (parseURLParams entries) ("id".toList)) = false ∨
       truthy (jsGet (parseURLParams entries) ("key".toList)) = false) →
      verifyCertificate entries fetched renderThrows =
        { display := DisplayState.error, fetchAttempted := false }) ∧
    (∀ entries fetched renderThrows,
      (verifyCertificate entries fetched renderThrows).fetchAttempted = true →
      truthy (jsGet (parseURLParams entries) ("id".toList)) = true ∧
      truthy (jsGet (parseURLParams entries) ("key".toList)) = true) := by
  constructor
  · intro entries fetched renderThrows h
    have h2 : truthy (jsGet (parseURLParams entries) ['i', 'd']) = false ∨
        truthy (jsGet (parseURLParams entries) ['k', 'e', 'y']) = false := h
    unfold verifyCertificate
    rcases h2 with h2 | h2 <;> simp [h2, showError, showLoading]
  · intro entries fetched renderThrows h
    unfold verifyCertificate at h
    by_cases hid : truthy (jsGet (parseURLParams entries) ['i', 'd']) = true
    · by_cases hkey : truthy (jsGet (parseURLParams entries) ['k', 'e', 'y']) = true
      · exact ⟨hid, hkey⟩
      · rw [Bool.not_eq_true] at hkey
        simp [hkey] at h
    · rw [Bool.not_eq_true] at hid
      simp [hid] at h

/-- Witness for C5: a query with only the key parameter ends in ERROR with no
fetch attempt. -/
theorem verifyCertificate_params_checked_before_fetch_witness :
    verifyCertificate [("key".toList, "AAAAAAAAAA".toList)]
        (Except.ok { certificates := [demoCert] }) false =
      { display := DisplayState.error, fetchAttempted := false } :=
  verifyCertificate_params_checked_before_fetch.1 _ _ _ (Or.inl (by decide))

/-- Claim C6: for all viewport dimensions the applied scale factor equals
max(min(availableWidth/1123, availableHeight/794, 1), 0.25) where the
available dimensions are the viewport dimensions minus the padding amounts;
consequently the factor always lies between the 0.25 floor and the cap 1. -/
theorem applyResponsiveScale_spec (vw vh : ℚ) :
    applyResponsiveScale vw vh =
      specScaleFormula (vw - (if vw < 768 then 20 else 40))
        (vh - (if vw < 768 then 100 else 200)) ∧
    1 / 4 ≤ applyResponsiveScale vw vh ∧ applyResponsiveScale vw vh ≤ 1 := by
  have h : applyResponsiveScale vw vh =
      max (min (min ((vw - (if vw < 768 then 20 else 40)) / 1123)
        ((vh - (if vw < 768 then 100 else 200)) / 794)) 1) (1 / 4) := rfl
  refine ⟨rfl, ?_, ?_⟩
  · rw [h]
    exact le_max_right _ _
  · rw [h]
    apply max_le
    · exact min_le_right _ _
    · norm_num

/-- Claim C7: the form gate navigates exactly when the trimmed identifier
matches PTSC, four digits, dash, four digits and the trimmed key is ten
alphanumeric characters; the four sample inputs behave as stated and every
rejection yields an alert outcome instead of navigation. -/
theorem handleFormSubmit_spec :
    (∀ rawId rawKey : Option JSStr,
      (∃ i k, handleFormSubmit rawId rawKey = FormOutcome.navigate i k) ↔
        (certIdPattern (jsTrim (rawId.getD [])) = true ∧
         certKeyPattern (jsTrim (rawKey.getD [])) = true)) ∧
    handleFormSubmit (some "PTSC2025-0123".toList) (some "ABCDEFGHIJ".toList) =
      FormOutcome.navigate "PTSC2025-0123".toList "ABCDEFGHIJ".toList ∧
    handleFormSubmit (some "PTSC25-123".toList) (some "ABCDEFGHIJ".toList) =
      FormOutcome.badId ∧
    handleFormSubmit (some "PTSC2025-0123".toList) (some "ABCDEFGHI".toList) =
      FormOutcome.badKey := by
  refine ⟨?_, by decide, by decide, by decide⟩
  intro rawId rawKey
  have hIdNil : certIdPattern (jsTrim ([] : JSStr)) = false := by decide
  have hKeyNil : certKeyPattern (jsTrim ([] : JSStr)) = false := by decide
  have hIdNil2 : certIdPattern ([] : JSStr) = false := by decide
  have hKeyNil2 : certKeyPattern ([] : JSStr) = false := by decide
  rcases rawId with _ | s1
  · simp [handleFormSubmit, truthy, hIdNil]
  · rcases rawKey with _ | s2
    · simp [handleFormSubmit, truthy, hKeyNil]
    · by_cases he1 : (jsTrim s1).isEmpty = true
      · have h1 : jsTrim s1 = [] := by
          cases hj : jsTrim s1
          · rfl
          · rw [hj] at he1; simp [List.isEmpty] at he1
        simp [handleFormSubmit, truthy, he1, h1, hIdNil, hIdNil2]
      · by_cases he2 : (jsTrim s2).isEmpty = true
        · have h2 : jsTrim s2 = [] := by
            cases hj : jsTrim s2
            · rfl
            · rw [hj] at he2; simp [List.isEmpty] at he2
          simp [handleFormSubmit, truthy, he1, he2, h2, hKeyNil, hKeyNil2]
        · by_cases hp1 : certIdPattern (jsTrim s1) = true
          · by_cases hp2 : certKeyPattern (jsTrim s2) = true
            · simp [handleFormSubmit, truthy, he1, he2, hp1, hp2]
            · rw [Bool.not_eq_true] at hp2
              simp [handleFormSubmit, truthy, he1, he2, hp1, hp2]
          · rw [Bool.not_eq_true] at hp1
            simp [handleFormSubmit, truthy, he1, he2, hp1]

/-- Claim C8: whenever the certificate region is present, a run of
downloadCertificate ends with the off-screen clone detached and the
navigation region visible, whatever the outcome of rasterization and
embedding; the display state is untouched, a failing run raises exactly one
alert and a successful run raises none. -/
theorem downloadCertificate_cleanup (format : ExportFormat)
    (navigationPresent rasterOk embedOk : Bool) (s : PageState) :
    (downloadCertificate format true navigationPresent rasterOk embedOk
      s).cloneAttached = false ∧
    (navigationPresent = true →
      (downloadCertificate format true navigationPresent rasterOk embedOk
        s).navVisible = true) ∧
    (downloadCertificate format true navigationPresent rasterOk embedOk
      s).display = s.display ∧
    ((rasterOk && (match format with
        | ExportFormat.pdf => embedOk
        | ExportFormat.jpg => true)) = false →
      (downloadCertificate format true navigationPresent rasterOk embedOk
        s).alerts = s.alerts + 1) ∧
    ((rasterOk && (match format with
        | ExportFormat.pdf => embedOk
        | ExportFormat.jpg => true)) = true →
      (downloadCertificate format true navigationPresent rasterOk embedOk
        s).alerts = s.alerts) := by
  cases format <;> cases navigationPresent <;> cases rasterOk <;>
    cases embedOk <;> simp [downloadCertificate]

/-- Witness for C8: a pdf run whose rasterization fails still detaches the
clone, leaves the navigation visible, and raises exactly one alert. -/
theorem downloadCertificate_cleanup_witness :
    (downloadCertificate ExportFormat.pdf true true false true
      { cloneAttached := false, navVisible := true,
        display := DisplayState.certificate, alerts := 0 }).cloneAttached =
      false ∧
    (downloadCertificate ExportFormat.pdf true true false true
      { cloneAttached := false, navVisible := true,
        display := DisplayState.certificate, alerts := 0 }).navVisible =
      true ∧
    (downloadCertificate ExportFormat.pdf true true false true
      { cloneAttached := false, navVisible := true,
        display := DisplayState.certificate, alerts := 0 }).alerts = 0 + 1 :=
  ⟨(downloadCertificate_cleanup ExportFormat.pdf true false true _).1,
   (downloadCertificate_cleanup ExportFormat.pdf true false true _).2.1 rfl,
   (downloadCertificate_cleanup ExportFormat.pdf true false true _).2.2.2.1 rfl⟩

theorem protection_invariant (ops : List Bool) :
    (runProtectionOps ops).registeredPairs =
      (if (runProtectionOps ops).handlersInstalled then 1 else 0) := by
  suffices h : ∀ (ops : List Bool) (s : ProtectionState),
      s.registeredPairs = (if s.handlersInstalled then 1 else 0) →
      (ops.foldl (fun s op =>
          if op then enableClientProtection s
          else disableClientProtection s) s).registeredPairs =
        (if (ops.foldl (fun s op =>
            if op then enableClientProtection s
            else disableClientProtection s) s).handlersInstalled
         then 1 else 0) by
    exact h ops initialProtectionState rfl
  intro ops
  induction ops with
  | nil => intro s hs; exact hs
  | cons op ops ih =>
    intro s hs
    simp only [List.foldl_cons]
    apply ih
    cases op
    · simp only [if_neg (by simp : ¬False), Bool.false_eq_true, if_false]
      unfold disableClientProtection
      cases hsi : s.handlersInstalled
      · simp only [hsi] at hs
        simp [hsi, hs]
      · simp only [hsi] at hs
        simp [hsi, hs]
    · simp only [if_true]
      unfold enableClientProtection
      cases hsi : s.handlersInstalled
      · simp only [hsi] at hs
        simp [hsi, hs]
      · simp only [hsi] at hs
        simp [hsi, hs]

/-- Claim C9: enableClientProtection is idempotent once the handler pair is
installed, any interleaving of enable and disable calls from page load keeps
at most one handler pair registered, and disableClientProtection always
clears the installed flag and is idempotent on a state with nothing
installed. -/
theorem enableClientProtection_spec :
    (∀ s : ProtectionState, s.handlersInstalled = true →
      enableClientProtection s = s) ∧
    (∀ ops : List Bool, (runProtectionOps ops).registeredPairs ≤ 1) ∧
    (∀ s : ProtectionState,
      (disableClientProtection s).handlersInstalled = false) ∧
    (∀ s : ProtectionState, s.handlersInstalled = false →
      disableClientProtection s = s) := by
  refine ⟨?_, ?_, ?_, ?_⟩
  · intro s h
    simp [enableClientProtection, h]
  · intro ops
    rw [protection_invariant ops]
    split <;> omega
  · intro s
    unfold disableClientProtection
    cases h : s.handlersInstalled <;> simp [h]
  · intro s h
    simp [disableClientProtection, h]

/-- Witness for C9: a second enable call changes nothing, a four-call
interleaving keeps at most one pair registered, and disable on the page-load
state changes nothing. -/
theorem enableClientProtection_spec_witness :
    enableClientProtection
        { handlersInstalled := true, registeredPairs := 1 } =
      { handlersInstalled := true, registeredPairs := 1 } ∧
    (runProtectionOps [true, true, false, true]).registeredPairs ≤ 1 ∧
    disableClientProtection
        { handlersInstalled := false, registeredPairs := 0 } =
      { handlersInstalled := false, registeredPairs := 0 } :=
  ⟨enableClientProtection_spec.1 _ rfl,
   enableClientProtection_spec.2.1 [true, true, false, true],
   enableClientProtection_spec.2.2.2 _ rfl⟩

theorem jsTrim_beq_nil (l : JSStr) :
    (jsTrim l == []) = l.all isJSWhitespace := by
  rcases hb : l.all isJSWhitespace with _ | _
  · rw [beq_eq_false_iff_ne]
    intro hnil
    rw [jsTrim_eq_nil_iff] at hnil
    rw [← List.all_eq_true] at hnil
    rw [hnil] at hb
    exact Bool.noConfusion hb
  · rw [beq_iff_eq, jsTrim_eq_nil_iff, ← List.all_eq_true]
    exact hb

/-- Claim C10: when both inputs trim to the empty string (including null or
undefined inputs), validateCertificate returns the first record whose id
field and key field are each absent, empty, or whitespace-only, rather than
yielding none unconditionally. -/
theorem validateCertificate_empty_credentials (certs : List Certificate)
    (id key : Option JSStr)
    (hid : jsTrim (id.getD []) = []) (hkey : jsTrim (key.getD []) = []) :
    validateCertificate id key certs =
      certs.find? (fun c => (c.id.getD []).all isJSWhitespace &&
        (c.key.getD []).all isJSWhitespace) := by
  unfold validateCertificate
  apply find?_congr_pred
  intro c _
  unfold certMatches
  rw [hid, hkey, jsTrim_beq_nil, jsTrim_beq_nil]

/-- Witness for C10: a whitespace-only id input and a null key input match a
record with no id field and a whitespace-only key field. -/
theorem validateCertificate_empty_credentials_witness :
    validateCertificate (some "  ".toList) none [malformedCert] =
      some malformedCert := by
  rw [validateCertificate_empty_credentials [malformedCert]
    (some "  ".toList) none (by decide) (by decide)]
  decide
